import Mathlib

/-!
Shallow embedding of the leecoste LMS backend (src/server.js, src/firebase.js)
and theorems checking the specification's claims about its token lifecycle,
route handlers and stats aggregation.

JSON web tokens are modelled symbolically: a well-formed signed token is a
record carrying its payload, its issued-at / expiry timestamps (seconds) and
the secret it was signed with; any other untrusted input is an unparseable
blob.  `jwt.sign` and `jwt.verify` of the jsonwebtoken library are embedded as
total functions on this model: verification checks the signing secret first
(signature check) and the expiry second, exactly as the library does.
-/

namespace LMS

/-- The payload signed into every token by server.js: the object `{ email }`. -/
structure Payload where
  email : String
deriving DecidableEq, Repr

/-- A signing secret (the value of `process.env.JWT_SECRET`). -/
structure Secret where
  val : String
deriving DecidableEq, Repr

/-- A well-formed signed token: payload, issued-at, expiry (seconds since
epoch) and the secret that signed it. -/
structure Token where
  payload : Payload
  iat : Nat
  exp : Nat
  secret : Secret
deriving DecidableEq, Repr

/-- An untrusted input presented where a JWT is expected: either a
well-formed signed token, or an unparseable blob. -/
inductive JwtInput where
  | wellFormed (t : Token) : JwtInput
  | garbage (s : String) : JwtInput
deriving DecidableEq, Repr

/-- The typed verification failures of `jwt.verify`: `JsonWebTokenError`
(unparseable input, wrong signing key, or missing key) is `Malformed`;
`TokenExpiredError` is `Expired`. -/
inductive VerifyError where
  | Malformed : VerifyError
  | Expired : VerifyError
deriving DecidableEq, Repr

/-- `jwt.sign` can fail when no secret is provided
(`secretOrPrivateKey must have a value`). -/
inductive SignError where
  | MissingSecret : SignError
deriving DecidableEq, Repr

/-- `jwt.sign(payload, key, \x7bexpiresIn\x7d)` at time `now`: with a secret
present it mints a token expiring `expiresIn` seconds after `now`; with the
secret absent the library throws. -/
def jwtSign (payload : Payload) (key : Option Secret) (now expiresIn : Nat) :
    Except SignError Token :=
  match key with
  | none => .error .MissingSecret
  | some k => .ok ⟨payload, now, now + expiresIn, k⟩

/-- `jwt.verify(input, key)` at time `now`, with a definite key: signature is
checked first (wrong secret or unparseable input fails as `Malformed`), then
expiry (`TokenExpiredError` when `now ≥ exp`), as jsonwebtoken does. -/
def jwtVerify (input : JwtInput) (key : Secret) (now : Nat) :
    Except VerifyError Payload :=
  match input with
  | .garbage _ => .error .Malformed
  | .wellFormed t =>
    if t.secret ≠ key then .error .Malformed
    else if t.exp ≤ now then .error .Expired
    else .ok t.payload

/-- `jwt.verify` as called by server.js with `process.env.JWT_SECRET`, which
may be absent: the library rejects a missing key with a `JsonWebTokenError`
before looking at the token. -/
def jwtVerifyEnv (input : JwtInput) (key : Option Secret) (now : Nat) :
    Except VerifyError Payload :=
  match key with
  | none => .error .Malformed
  | some k => jwtVerify input k now

/-- The process environment as read by server.js and firebase.js. -/
structure Env where
  firebaseServiceAccount : Option String
  jwtSecret : Option Secret
  port : Option Nat
deriving DecidableEq, Repr

/-- server.js `generateAccessToken`: `jwt.sign(user, process.env.JWT_SECRET,
\x7bexpiresIn: "15m"\x7d)` — 15 minutes = 900 seconds. -/
def generateAccessToken (env : Env) (user : Payload) (now : Nat) :
    Except SignError Token :=
  jwtSign user env.jwtSecret now 900

/-- server.js `generateRefreshToken`: `jwt.sign(user, process.env.JWT_SECRET,
\x7bexpiresIn: "7d"\x7d)` — 7 days = 604800 seconds. -/
def generateRefreshToken (env : Env) (user : Payload) (now : Nat) :
    Except SignError Token :=
  jwtSign user env.jwtSecret now 604800

/-- firebase.js startup: `if (!process.env.FIREBASE_SERVICE_ACCOUNT) throw`.
This is the only environment check performed before the server starts
listening; `JWT_SECRET` is read ad hoc inside the JWT helpers. -/
def firebaseStartup (env : Env) : Except String Unit :=
  match env.firebaseServiceAccount with
  | none => .error ("FIREBASE_SERVICE_ACCOUNT is missing")
  | some _ => .ok ()

/-- Startup of server.js: requiring ./firebase runs the service-account
check; no further environment validation happens before `app.listen`. -/
def serverStartup (env : Env) : Except String Unit :=
  firebaseStartup env

/-! ### Credential store (Firestore collection "users") -/

/-- A document of the `users` collection, as written by the register route. -/
structure CredRecord where
  email : String
  passwordHash : String
  role : String
  status : String
  createdAt : Nat
deriving DecidableEq, Repr

/-- The `users` collection, in document order; the Firestore query
`where("email", "==", email)` filters it and `docs[0]` takes the first hit. -/
def findByEmail (store : List CredRecord) (email : String) :
    Option CredRecord :=
  (store.filter (fun r => r.email = email)).head?

/-! ### HTTP responses and cookies -/

/-- The options server.js passes to `res.cookie` / `res.clearCookie`. -/
structure CookieOptions where
  httpOnly : Bool
  secure : Bool
  sameSite : String
  maxAge : Nat
deriving DecidableEq, Repr

/-- A `Set-Cookie` produced by `res.cookie(name, value, options)`. -/
structure SetCookie where
  name : String
  value : Token
  options : CookieOptions
deriving DecidableEq, Repr

/-! ### POST /api/register -/

/-- Response of the register route. -/
structure RegisterResponse where
  status : Nat
  msg : String
deriving DecidableEq, Repr

/-- POST /api/register: if a document with the given email exists respond
400 "User exists"; otherwise hash the password, create the document
`\x7bemail, password: hash, role: "client", status: "active", createdAt\x7d`
and respond 200 "Registered successfully".  `hash` is the external bcrypt
collaborator. -/
def registerHandler (hash : String → String) (store : List CredRecord)
    (email password : String) (now : Nat) :
    RegisterResponse × List CredRecord :=
  let snapshot := store.filter (fun r => r.email = email)
  if !snapshot.isEmpty then
    (⟨400, "User exists"⟩, store)
  else
    (⟨200, "Registered successfully"⟩,
      store ++ [⟨email, hash password, "client", "active", now⟩])

/-! ### POST /api/login -/

/-- Response of the login route: on success the body is `\x7baccessToken\x7d`
and a refresh cookie is set; on failure a `msg` body and no cookie. -/
structure LoginResponse where
  status : Nat
  msg : Option String
  accessToken : Option Token
  setCookie : Option SetCookie
deriving DecidableEq, Repr

/-- POST /api/login: look the email up in the `users` collection; compare
the password against `docs[0].password` with the external bcrypt
collaborator `compare`; on a match mint both tokens from payload
`\x7bemail\x7d`, set the refreshToken cookie (httpOnly, secure,
sameSite "none", maxAge 7*24*60*60*1000 ms) and return the access token;
otherwise 400 "Invalid credentials".  A thrown `jwt.sign` (absent secret)
is caught by the route's try/catch as 500 "Login failed". -/
def loginHandler (env : Env) (compare : String → String → Bool)
    (store : List CredRecord) (email password : String) (now : Nat) :
    LoginResponse :=
  match findByEmail store email with
  | none => ⟨400, some ("Invalid credentials"), none, none⟩
  | some user =>
    if compare password user.passwordHash then
      match generateAccessToken env ⟨email⟩ now,
            generateRefreshToken env ⟨email⟩ now with
      | .ok a, .ok r =>
        ⟨200, none, some a,
          some ⟨"refreshToken", r, ⟨true, true, "none", 604800000⟩⟩⟩
      | _, _ => ⟨500, some ("Login failed"), none, none⟩
    else ⟨400, some ("Invalid credentials"), none, none⟩

/-! ### POST /api/refresh -/

/-- A refresh request: the refreshToken cookie (if any) and the (ignored)
request body, kept to state that the minted identity is independent of it. -/
structure RefreshReq where
  refreshTokenCookie : Option JwtInput
  body : String
deriving DecidableEq, Repr

/-- Response of the refresh route.  `res.sendStatus(n)` sets no cookie and
no token; `res.json(\x7baccessToken\x7d)` sets no cookie either. -/
structure RefreshResponse where
  status : Nat
  accessToken : Option Token
  setCookie : Option SetCookie
deriving DecidableEq, Repr

/-- POST /api/refresh: missing cookie → 401; `jwt.verify` failure → 403;
otherwise mint a new access token for payload `\x7bemail: user.email\x7d` and
return it.  The refresh token is neither rotated nor re-issued (no
`res.cookie` on this path).  The 500 arm models a throwing `jwt.sign`,
unreachable because a successful verify implies the secret is present. -/
def refreshHandler (env : Env) (req : RefreshReq) (now : Nat) :
    RefreshResponse :=
  match req.refreshTokenCookie with
  | none => ⟨401, none, none⟩
  | some input =>
    match jwtVerifyEnv input env.jwtSecret now with
    | .error _ => ⟨403, none, none⟩
    | .ok user =>
      match generateAccessToken env ⟨user.email⟩ now with
      | .ok a => ⟨200, some a, none⟩
      | .error _ => ⟨500, none, none⟩

/-! ### Session middleware and GET /api/dashboard -/

/-- Modelled from the spec: the session middleware source
(src/middleware/auth, required by server.js) is not under src/.  Per the
spec's state machine: extract the bearer token from the authorization
header, absent → reject 401; verify via the Token Service, `Malformed` or
`Expired` → reject 403; on success attach the decoded identity to the
request context and pass control to the handler. -/
inductive AuthResult where
  | reject (status : Nat) : AuthResult
  | granted (user : Payload) : AuthResult
deriving DecidableEq, Repr

/-- Modelled from the spec: the middleware's extract → verify → grant
sequence (see `AuthResult`). -/
def authMiddleware (env : Env) (bearer : Option JwtInput) (now : Nat) :
    AuthResult :=
  match bearer with
  | none => .reject 401
  | some input =>
    match jwtVerifyEnv input env.jwtSecret now with
    | .error _ => .reject 403
    | .ok user => .granted user

/-- Response of the dashboard route. -/
structure DashboardResponse where
  status : Nat
  msg : Option String
  user : Option String
deriving DecidableEq, Repr

/-- GET /api/dashboard behind the auth middleware: on admission respond
200 `\x7bmsg: "Welcome to dashboard", user: req.user.email\x7d`; otherwise
the middleware's rejection status with no body fields. -/
def dashboardRoute (env : Env) (bearer : Option JwtInput) (now : Nat) :
    DashboardResponse :=
  match authMiddleware env bearer now with
  | .reject s => ⟨s, none, none⟩
  | .granted u => ⟨200, some ("Welcome to dashboard"), some u.email⟩

/-! ### GET /api/stats -/

/-- A principal of the Identity Directory as consumed by the stats loop. -/
structure AuthUser where
  emailVerified : Bool
  creationTime : Nat
deriving DecidableEq, Repr

/-- The do/while pagination loop of GET /api/stats, over the directory's
pages (each `listUsers` batch is one page): `total++` for every user,
`verified++` when `user.emailVerified`. -/
def statsCount (pages : List (List AuthUser)) : Nat × Nat :=
  pages.foldl
    (fun acc page =>
      page.foldl
        (fun acc2 u =>
          (acc2.1 + 1, if u.emailVerified then acc2.2 + 1 else acc2.2))
        acc)
    (0, 0)

/-- The successful (200) response body of GET /api/stats; `unverifiedUsers`
is the JS number `total - verified`, so it is an integer. -/
structure StatsResponse where
  totalUsers : Nat
  verifiedUsers : Nat
  unverifiedUsers : Int
  systemStatus : String
  security : String
deriving DecidableEq, Repr

/-- GET /api/stats on the directory's pages: count, then respond with
totals and `unverifiedUsers = total - verified`. -/
def statsHandler (pages : List (List AuthUser)) : StatsResponse :=
  let c := statsCount pages
  ⟨c.1, c.2, (c.1 : Int) - (c.2 : Int), "Active", "Protected"⟩

/-! ### Concrete sample values used by the witness theorems -/

/-- A sample signing secret. -/
def sampleSecret : Secret := ⟨"jwt-secret"⟩

/-- A sample environment with every variable present. -/
def sampleEnv : Env := ⟨some ("svc-acct"), some sampleSecret, some 5000⟩

/-- An environment with the Firebase config present but `JWT_SECRET`
absent. -/
def noSecretEnv : Env := ⟨some ("svc-acct"), none, some 5000⟩

/-- A sample refresh token, freshly issued at time 0. -/
def sampleRefreshTok : Token := ⟨⟨"a@x.com"⟩, 0, 604800, sampleSecret⟩

/-- A sample bcrypt model for witnesses: hashing prefixes a marker. -/
def sampleHash (plaintext : String) : String := "h:" ++ plaintext

/-- A sample bcrypt comparison matching `sampleHash`. -/
def sampleCompare (plaintext stored : String) : Bool :=
  stored = sampleHash plaintext

/-- A sample stored credential record for `"a@x.com"/"pw1"`. -/
def sampleRecord : CredRecord := ⟨"a@x.com", "h:pw1", "client", "active", 0⟩

/-! ### C1: access-token round trip -/

/-- C1: for every identity `i`, verifying (with the process signing secret)
a token produced by `generateAccessToken` on payload `\x7bemail: i\x7d`
immediately after issuance succeeds and yields exactly `i`. -/
theorem c1_access_token_roundtrip (env : Env) (s : Secret) (i : String)
    (now : Nat) (t : Token) (hsec : env.jwtSecret = some s)
    (ht : generateAccessToken env ⟨i⟩ now = Except.ok t) :
    jwtVerifyEnv (JwtInput.wellFormed t) env.jwtSecret now = Except.ok ⟨i⟩ := by
  unfold generateAccessToken jwtSign at ht
  rw [hsec] at ht
  injection ht with ht
  subst ht
  unfold jwtVerifyEnv jwtVerify
  rw [hsec]
  simp

/-- Witness for C1 at `i = "a@x.com"`, `now = 0`, the sample environment. -/
theorem c1_witness :
    jwtVerifyEnv (JwtInput.wellFormed ⟨⟨"a@x.com"⟩, 0, 0 + 900, sampleSecret⟩)
      sampleEnv.jwtSecret 0 = Except.ok ⟨"a@x.com"⟩ :=
  c1_access_token_roundtrip sampleEnv sampleSecret "a@x.com" 0
    ⟨⟨"a@x.com"⟩, 0, 0 + 900, sampleSecret⟩ rfl rfl

/-! ### C2: total, typed verification -/

/-- C2: `jwtVerify` is a total function into a typed result (it never
throws); it yields `Expired` exactly when the input is a well-formed token
signed with the given key whose expiry has elapsed, and `Malformed` exactly
when the input is unparseable or signed with a different key — so an
expired validly-signed token is never reported `Malformed`. -/
theorem c2_verify_classification (input : JwtInput) (key : Secret)
    (now : Nat) :
    (jwtVerify input key now = Except.error VerifyError.Expired ↔
      (∃ t : Token, input = JwtInput.wellFormed t ∧ t.secret = key ∧
        t.exp ≤ now)) ∧
    (jwtVerify input key now = Except.error VerifyError.Malformed ↔
      ((∃ s : String, input = JwtInput.garbage s) ∨
       (∃ t : Token, input = JwtInput.wellFormed t ∧ t.secret ≠ key))) := by
  cases input with
  | garbage s => simp [jwtVerify]
  | wellFormed t =>
    by_cases hk : t.secret = key
    · by_cases he : t.exp ≤ now
      · simp [jwtVerify, hk, he]
      · simp [jwtVerify, hk, he]
    · simp [jwtVerify, hk]

/-- Witness for C2: unparseable input is classified `Malformed`. -/
theorem c2_witness :
    jwtVerify (JwtInput.garbage ("zzz")) sampleSecret 0 =
      Except.error VerifyError.Malformed :=
  (c2_verify_classification (JwtInput.garbage ("zzz")) sampleSecret 0).2.mpr
    (Or.inl ⟨"zzz", rfl⟩)

/-! ### C7: same secret and mechanism, only expiry differs -/

/-- C7: with the signing secret present, `generateAccessToken` and
`generateRefreshToken` both succeed, signing the same payload with the same
secret at the same issue time; the only difference is the expiry —
15 minutes (900 s) for access tokens, 7 days (604800 s) for refresh
tokens. -/
theorem c7_same_secret_only_expiry (env : Env) (s : Secret) (u : Payload)
    (now : Nat) (hsec : env.jwtSecret = some s) :
    ∃ a r : Token,
      generateAccessToken env u now = Except.ok a ∧
      generateRefreshToken env u now = Except.ok r ∧
      a.secret = s ∧ r.secret = s ∧ a.payload = u ∧ r.payload = u ∧
      a.iat = now ∧ r.iat = now ∧
      a.exp = a.iat + 15 * 60 ∧ r.exp = r.iat + 7 * 24 * 60 * 60 := by
  refine ⟨⟨u, now, now + 900, s⟩, ⟨u, now, now + 604800, s⟩, ?_, ?_,
    rfl, rfl, rfl, rfl, rfl, rfl, rfl, rfl⟩
  · unfold generateAccessToken jwtSign
    rw [hsec]
  · unfold generateRefreshToken jwtSign
    rw [hsec]

/-! ### C3: refresh route statuses and non-rotation -/

/-- C3: POST /api/refresh — absent cookie → 401; cookie failing
verification → 403; on successful verification the response carries a
newly minted access token only, with no Set-Cookie (the refresh token is
not rotated or re-issued). -/
theorem c3_refresh_route (env : Env) (req : RefreshReq) (now : Nat) :
    (req.refreshTokenCookie = none →
      refreshHandler env req now = ⟨401, none, none⟩) ∧
    (∀ input : JwtInput, req.refreshTokenCookie = some input →
      (∀ e : VerifyError,
        jwtVerifyEnv input env.jwtSecret now = Except.error e →
        refreshHandler env req now = ⟨403, none, none⟩) ∧
      (∀ user : Payload,
        jwtVerifyEnv input env.jwtSecret now = Except.ok user →
        ∃ a : Token, generateAccessToken env ⟨user.email⟩ now = Except.ok a ∧
          refreshHandler env req now = ⟨200, some a, none⟩)) := by
  refine ⟨fun h => by simp [refreshHandler, h], fun input hin => ⟨?_, ?_⟩⟩
  · intro e he
    simp [refreshHandler, hin, he]
  · intro user hu
    cases hk : env.jwtSecret with
    | none => rw [hk] at hu; simp [jwtVerifyEnv] at hu
    | some k =>
      rw [hk] at hu
      refine ⟨⟨⟨user.email⟩, now, now + 900, k⟩, ?_, ?_⟩
      · unfold generateAccessToken jwtSign
        rw [hk]
      · simp [refreshHandler, hin, hu, generateAccessToken, jwtSign, hk]

/-- Witness for C3: the missing-cookie arm at the sample environment. -/
theorem c3_witness :
    refreshHandler sampleEnv ⟨none, "ignored-body"⟩ 0 = ⟨401, none, none⟩ :=
  (c3_refresh_route sampleEnv ⟨none, "ignored-body"⟩ 0).1 rfl

/-! ### C4: refresh mints only the cookie-bound identity -/

/-- C4: whenever the refresh route returns an access token, its identity is
the one encoded in a validly-signed, non-expired refresh token presented in
the refreshToken cookie; and the whole response depends only on that
cookie, not on the request body. -/
theorem c4_refresh_identity_binding (env : Env) (req : RefreshReq)
    (now : Nat) (a : Token)
    (h : (refreshHandler env req now).accessToken = some a) :
    (∃ rt : Token,
      req.refreshTokenCookie = some (JwtInput.wellFormed rt) ∧
      env.jwtSecret = some rt.secret ∧ now < rt.exp ∧
      a.payload.email = rt.payload.email) ∧
    (∀ other : RefreshReq,
      other.refreshTokenCookie = req.refreshTokenCookie →
      refreshHandler env other now = refreshHandler env req now) := by
  constructor
  · cases hc : req.refreshTokenCookie with
    | none => simp [refreshHandler, hc] at h
    | some input =>
      cases hk : env.jwtSecret with
      | none => simp [refreshHandler, hc, jwtVerifyEnv, hk] at h
      | some k =>
        cases input with
        | garbage s =>
          simp [refreshHandler, hc, jwtVerifyEnv, hk, jwtVerify] at h
        | wellFormed t =>
          by_cases hs : t.secret = k
          · by_cases he : t.exp ≤ now
            · simp [refreshHandler, hc, jwtVerifyEnv, hk, jwtVerify, hs,
                he] at h
            · refine ⟨t, rfl, by rw [hs], by omega, ?_⟩
              simp [refreshHandler, hc, jwtVerifyEnv, hk, jwtVerify, hs, he,
                generateAccessToken, jwtSign] at h
              rw [← h]
          · simp [refreshHandler, hc, jwtVerifyEnv, hk, jwtVerify, hs] at h
  · intro other hco
    unfold refreshHandler
    rw [hco]

/-- Witness for C4 at the sample refresh token, `now = 0`. -/
theorem c4_witness :
    (∃ rt : Token,
      (RefreshReq.mk (some (JwtInput.wellFormed sampleRefreshTok))
        "body-a").refreshTokenCookie = some (JwtInput.wellFormed rt) ∧
      sampleEnv.jwtSecret = some rt.secret ∧ 0 < rt.exp ∧
      (Token.mk ⟨"a@x.com"⟩ 0 (0 + 900)
        sampleSecret).payload.email = rt.payload.email) ∧
    (∀ other : RefreshReq,
      other.refreshTokenCookie =
        (RefreshReq.mk (some (JwtInput.wellFormed sampleRefreshTok))
          "body-a").refreshTokenCookie →
      refreshHandler sampleEnv other 0 =
        refreshHandler sampleEnv
          (RefreshReq.mk (some (JwtInput.wellFormed sampleRefreshTok))
            "body-a") 0) :=
  c4_refresh_identity_binding sampleEnv
    ⟨some (JwtInput.wellFormed sampleRefreshTok), "body-a"⟩ 0
    ⟨⟨"a@x.com"⟩, 0, 0 + 900, sampleSecret⟩ rfl

/-! ### C5: protected route gating -/

/-- C5: for every request to GET /api/dashboard — no bearer token → 401
with no handler output; failed verification → 403 with no handler output;
successful verification → the identity is attached to the request context
and the handler runs, responding 200 and echoing the authenticated
identity. -/
theorem c5_dashboard_auth (env : Env) (bearer : Option JwtInput)
    (now : Nat) :
    (bearer = none → dashboardRoute env bearer now = ⟨401, none, none⟩) ∧
    (∀ input : JwtInput, ∀ e : VerifyError, bearer = some input →
      jwtVerifyEnv input env.jwtSecret now = Except.error e →
      dashboardRoute env bearer now = ⟨403, none, none⟩) ∧
    (∀ input : JwtInput, ∀ user : Payload, bearer = some input →
      jwtVerifyEnv input env.jwtSecret now = Except.ok user →
      authMiddleware env bearer now = AuthResult.granted user ∧
      dashboardRoute env bearer now =
        ⟨200, some ("Welcome to dashboard"), some user.email⟩) := by
  refine ⟨fun h => by simp [dashboardRoute, authMiddleware, h], ?_, ?_⟩
  · intro input e hb he
    simp [dashboardRoute, authMiddleware, hb, he]
  · intro input user hb hu
    constructor
    · simp [authMiddleware, hb, hu]
    · simp [dashboardRoute, authMiddleware, hb, hu]

/-- Witness for C5: the missing-token arm at the sample environment. -/
theorem c5_witness :
    dashboardRoute sampleEnv none 0 = ⟨401, none, none⟩ :=
  (c5_dashboard_auth sampleEnv none 0).1 rfl

/-! ### C6: startup checks and the signing secret -/

/-- C6 counterexample: with the Firebase service-account config present but
the token-signing secret (`JWT_SECRET`) absent from the environment,
startup succeeds — the process does not fail fatally at startup. -/
theorem c6_counterexample :
    noSecretEnv.jwtSecret = none ∧
      serverStartup noSecretEnv = Except.ok () :=
  ⟨rfl, rfl⟩

/-- C6 (amended): startup fails fatally exactly when the Firebase
service-account config is absent; the token-signing secret is not checked
at startup, but with it absent every signing attempt fails and every
verification fails, so no token is ever signed or successfully verified
with an absent secret. -/
theorem c6_amended_startup (env : Env) :
    (serverStartup env = Except.ok () ↔
      env.firebaseServiceAccount ≠ none) ∧
    (env.jwtSecret = none →
      (∀ u : Payload, ∀ now : Nat,
        generateAccessToken env u now =
          Except.error SignError.MissingSecret) ∧
      (∀ u : Payload, ∀ now : Nat,
        generateRefreshToken env u now =
          Except.error SignError.MissingSecret) ∧
      (∀ input : JwtInput, ∀ now : Nat,
        jwtVerifyEnv input env.jwtSecret now =
          Except.error VerifyError.Malformed)) := by
  constructor
  · cases hf : env.firebaseServiceAccount <;>
      simp [serverStartup, firebaseStartup, hf]
  · intro hn
    refine ⟨fun u now => ?_, fun u now => ?_, fun input now => ?_⟩
    · simp [generateAccessToken, jwtSign, hn]
    · simp [generateRefreshToken, jwtSign, hn]
    · simp [jwtVerifyEnv, hn]

/-- Witness for C6 (amended): with the secret absent, signing fails. -/
theorem c6_witness :
    generateAccessToken noSecretEnv ⟨"a@x.com"⟩ 0 =
      Except.error SignError.MissingSecret :=
  ((c6_amended_startup noSecretEnv).2 rfl).1 ⟨"a@x.com"⟩ 0

/-! ### C8: login route -/

/-- C8: POST /api/login — with the email in the store and a matching
password, respond 200 with an access token in the body and a Set-Cookie
for `refreshToken` that is httpOnly, secure, sameSite "none", 7-day max
age; with an unknown email or a non-matching password, respond
400 `\x7bmsg: "Invalid credentials"\x7d` with no cookie. -/
theorem c8_login_route (env : Env) (s : Secret)
    (compare : String → String → Bool) (store : List CredRecord)
    (email password : String) (now : Nat) (hsec : env.jwtSecret = some s) :
    (∀ r : CredRecord, findByEmail store email = some r →
      compare password r.passwordHash = true →
      ∃ a rt : Token,
        generateAccessToken env ⟨email⟩ now = Except.ok a ∧
        generateRefreshToken env ⟨email⟩ now = Except.ok rt ∧
        loginHandler env compare store email password now =
          ⟨200, none, some a,
            some ⟨"refreshToken", rt, ⟨true, true, "none", 604800000⟩⟩⟩) ∧
    (findByEmail store email = none →
      loginHandler env compare store email password now =
        ⟨400, some ("Invalid credentials"), none, none⟩) ∧
    (∀ r : CredRecord, findByEmail store email = some r →
      compare password r.passwordHash = false →
      loginHandler env compare store email password now =
        ⟨400, some ("Invalid credentials"), none, none⟩) := by
  refine ⟨?_, ?_, ?_⟩
  · intro r hr hcmp
    refine ⟨⟨⟨email⟩, now, now + 900, s⟩, ⟨⟨email⟩, now, now + 604800, s⟩,
      ?_, ?_, ?_⟩
    · unfold generateAccessToken jwtSign
      rw [hsec]
    · unfold generateRefreshToken jwtSign
      rw [hsec]
    · simp [loginHandler, hr, hcmp, generateAccessToken,
        generateRefreshToken, jwtSign, hsec]
  · intro hr
    simp [loginHandler, hr]
  · intro r hr hcmp
    simp [loginHandler, hr, hcmp]

/-- Witness for C8: the correct-password arm at the sample store. -/
theorem c8_witness :
    ∃ a rt : Token,
      generateAccessToken sampleEnv ⟨"a@x.com"⟩ 0 = Except.ok a ∧
      generateRefreshToken sampleEnv ⟨"a@x.com"⟩ 0 = Except.ok rt ∧
      loginHandler sampleEnv sampleCompare [sampleRecord] "a@x.com" "pw1"
          0 =
        ⟨200, none, some a,
          some ⟨"refreshToken", rt, ⟨true, true, "none", 604800000⟩⟩⟩ :=
  (c8_login_route sampleEnv sampleSecret sampleCompare [sampleRecord]
      "a@x.com" "pw1" 0 rfl).1 sampleRecord rfl (by decide)

/-! ### C9: register route -/

/-- C9: POST /api/register — with no stored record for the email, a record
`\x7bemail, password: hash, role: "client", status: "active", createdAt\x7d`
is created and the response is 200 "Registered successfully"; with an
existing record, the response is 400 "User exists" and the store is
unchanged. -/
theorem c9_register_route (hash : String → String)
    (store : List CredRecord) (email password : String) (now : Nat) :
    ((∀ r ∈ store, r.email ≠ email) →
      registerHandler hash store email password now =
        (⟨200, "Registered successfully"⟩,
          store ++ [⟨email, hash password, "client", "active", now⟩])) ∧
    ((∃ r ∈ store, r.email = email) →
      registerHandler hash store email password now =
        (⟨400, "User exists"⟩, store)) := by
  constructor
  · intro hnone
    have hfilter : store.filter (fun r => r.email = email) = [] :=
      List.filter_eq_nil_iff.mpr (fun r hr => by simpa using hnone r hr)
    simp [registerHandler, hfilter]
  · rintro ⟨r, hr, hre⟩
    have hmem : r ∈ store.filter (fun x => x.email = email) :=
      List.mem_filter.mpr ⟨hr, by simpa using hre⟩
    have hne : ¬ store.filter (fun x => x.email = email) = [] := by
      intro h0
      rw [h0] at hmem
      exact absurd hmem (List.not_mem_nil r)
    simp [registerHandler, List.isEmpty_iff, hne]

/-- Witness for C9: registering into the empty store succeeds. -/
theorem c9_witness :
    registerHandler sampleHash [] "a@x.com" "pw1" 0 =
      (⟨200, "Registered successfully"⟩,
        [⟨"a@x.com", sampleHash "pw1", "client", "active", 0⟩]) :=
  (c9_register_route sampleHash [] "a@x.com" "pw1" 0).1
    (fun r hr => absurd hr (List.not_mem_nil r))

/-! ### C10: stats invariant -/

/-- One page of the stats loop adds the page's length to the running total
and its number of verified users to the running verified count. -/
theorem statsPage_foldl (page : List AuthUser) (acc : Nat × Nat) :
    page.foldl
        (fun acc2 u =>
          (acc2.1 + 1, if u.emailVerified then acc2.2 + 1 else acc2.2))
        acc =
      (acc.1 + page.length,
        acc.2 + page.countP (fun u => u.emailVerified)) := by
  induction page generalizing acc with
  | nil => simp
  | cons u us ih =>
    rw [List.foldl_cons, ih, List.countP_cons]
    cases hu : u.emailVerified <;>
      refine Prod.ext ?_ ?_ <;> simp [hu] <;> omega

/-- The whole pagination loop, from any accumulator: it adds the length of
the flattened directory to the total and its verified count to the
verified tally. -/
theorem statsFold_spec (pages : List (List AuthUser)) (acc : Nat × Nat) :
    pages.foldl
        (fun a page =>
          page.foldl
            (fun acc2 u =>
              (acc2.1 + 1, if u.emailVerified then acc2.2 + 1 else acc2.2))
            a)
        acc =
      (acc.1 + pages.flatten.length,
        acc.2 + pages.flatten.countP (fun u => u.emailVerified)) := by
  induction pages generalizing acc with
  | nil => simp
  | cons page rest ih =>
    rw [List.foldl_cons, statsPage_foldl, ih]
    refine Prod.ext ?_ ?_ <;> simp <;> omega

/-- The stats loop computes the length of the whole directory and the
count of its verified users, however the directory is paged. -/
theorem statsCount_spec (pages : List (List AuthUser)) :
    statsCount pages =
      (pages.flatten.length,
        pages.flatten.countP (fun u => u.emailVerified)) := by
  unfold statsCount
  rw [statsFold_spec]
  simp

/-- C10: every 200 response of GET /api/stats satisfies
`unverifiedUsers = totalUsers - verifiedUsers` with
`verifiedUsers ≤ totalUsers` (so `unverifiedUsers ≥ 0`), and the response
is independent of how the Identity Directory pages its principals. -/
theorem c10_stats_invariant (pages : List (List AuthUser)) :
    (statsHandler pages).unverifiedUsers =
      ((statsHandler pages).totalUsers : Int) -
        ((statsHandler pages).verifiedUsers : Int) ∧
    (statsHandler pages).verifiedUsers ≤ (statsHandler pages).totalUsers ∧
    (∀ other : List (List AuthUser), pages.flatten = other.flatten →
      statsHandler pages = statsHandler other) := by
  refine ⟨rfl, ?_, ?_⟩
  · show (statsCount pages).2 ≤ (statsCount pages).1
    rw [statsCount_spec]
    exact List.countP_le_length _
  · intro other hj
    simp [statsHandler, statsCount_spec, hj]

/-- Witness for C10: two pagings of the same two-user directory give the
same response. -/
theorem c10_witness :
    statsHandler [[⟨true, 5⟩], [⟨false, 7⟩]] =
      statsHandler [[⟨true, 5⟩, ⟨false, 7⟩]] :=
  (c10_stats_invariant [[⟨true, 5⟩], [⟨false, 7⟩]]).2.2
    [[⟨true, 5⟩, ⟨false, 7⟩]] rfl

/-- Witness for C7 at the sample environment, `now = 0`. -/
theorem c7_witness :
    ∃ a r : Token,
      generateAccessToken sampleEnv ⟨"a@x.com"⟩ 0 = Except.ok a ∧
      generateRefreshToken sampleEnv ⟨"a@x.com"⟩ 0 = Except.ok r ∧
      a.secret = sampleSecret ∧ r.secret = sampleSecret ∧
      a.payload = ⟨"a@x.com"⟩ ∧ r.payload = ⟨"a@x.com"⟩ ∧
      a.iat = 0 ∧ r.iat = 0 ∧
      a.exp = a.iat + 15 * 60 ∧ r.exp = r.iat + 7 * 24 * 60 * 60 :=
  c7_same_secret_only_expiry sampleEnv sampleSecret ⟨"a@x.com"⟩ 0 rfl

end LMS
